import Mathlib

/-!
Verification of the exam-execution core of the exstem backend.

The Go source is shallowly embedded: Redis is a record of string, hash and
list (queue) maps; PostgreSQL tables are finite maps keyed the way their
unique constraints key them; JSON marshalling of typed values is modelled by
a tagged value type `RVal` (marshal = tagging, unmarshal = untagging, with
failure on a tag mismatch, which is how `json.Unmarshal` behaves on the
payload shapes the code uses); machine integers are `Int`; `float64` scores
are modelled exactly as `ℚ` (the spec compares the score formula, not
rounding).  Every definition is translated from the corresponding Go
function, named like it, with the source file noted in its doc comment.
-/

namespace Exstem

/-- Exam status enumeration (internal/model/exam.go). -/
inductive ExamStatus where
  | draft
  | published
  | inProgress
  | completed
  | archived
deriving DecidableEq, Repr

/-- Session status enumeration (internal/model/exam_session.go). -/
inductive SessionStatus where
  | sessionInProgress
  | sessionCompleted
deriving DecidableEq, Repr

/-- The fields of `model.Exam` the exam-execution core reads
(internal/model/exam.go).  UUIDs are strings; times are unix seconds. -/
structure Exam where
  id : String
  title : String
  authorId : Int
  scheduledStart : Option Int
  scheduledEnd : Option Int
  durationMinutes : Int
  entryToken : String
  questionCount : Int
  randomizeQuestions : Bool
  status : ExamStatus
deriving DecidableEq, Repr

/-- The fields of `model.Question` used when warming the cache
(internal/model/question.go): id, text, options blob, correct option, order. -/
structure Question where
  id : String
  questionText : String
  options : String
  correctOption : String
  orderNum : Int
deriving DecidableEq, Repr

/-- `model.QuestionForStudent` — a question without its correct answer
(internal/model/exam.go). -/
structure QuestionForStudent where
  id : String
  questionText : String
  options : String
  orderNum : Int
deriving DecidableEq, Repr

/-- `model.ExamPayload` — the student-facing payload cached in Redis
(internal/model/exam.go). -/
structure ExamPayload where
  examId : String
  title : String
  duration : Int
  questions : List QuestionForStudent
deriving DecidableEq, Repr

/-- A row of `exam_sessions` (internal/model/exam_session.go,
migrations): `(exam_id, student_id)` is the unique key, so the row itself
carries the remaining columns. -/
structure ExamSession where
  id : Int
  startedAt : Int
  finishedAt : Option Int
  status : SessionStatus
  finalScore : Option ℚ
  questionOrder : List String
deriving DecidableEq, Repr

/-- Queue message for `persist_answers_queue`
(internal/worker part: `answerPayload`). -/
structure AnswerPayload where
  studentId : Int
  examId : String
  qId : String
  answer : String
deriving DecidableEq, Repr

/-- Queue message for `persist_scores_queue`
(internal/worker/scoring_worker.go: `scorePayload`). -/
structure ScorePayload where
  studentId : Int
  examId : String
  score : ℚ
deriving DecidableEq, Repr

/-- Queue message for `persist_cheats_queue`
(internal/worker cheat worker: `cheatPayload`). -/
structure CheatPayload where
  studentId : Int
  examId : String
  timestamp : Int
  payload : String
deriving DecidableEq, Repr

/-- Queue message for `persist_question_order_queue`
(internal/worker question-order worker: `questionOrderPayload`). -/
structure QuestionOrderPayload where
  examId : String
  studentId : Int
  order : List String
deriving DecidableEq, Repr

/-- A well-typed Redis value: the JSON string actually stored is modelled by
the typed value it unmarshals to. -/
inductive RVal where
  | str (s : String)
  | int (n : Int)
  | boolean (b : Bool)
  | strList (l : List String)
  | boolMap (m : List (String × Bool))
  | payload (p : ExamPayload)
deriving DecidableEq, Repr

/-- A queue item: the JSON string pushed onto a Redis list, modelled by the
typed payload it unmarshals to. -/
inductive QMsg where
  | ans (p : AnswerPayload)
  | score (p : ScorePayload)
  | cheat (p : CheatPayload)
  | qorder (p : QuestionOrderPayload)
deriving DecidableEq, Repr

/-- The Redis state: plain keys, hash keys, and list keys (queues). -/
structure Redis where
  strings : String → Option RVal
  hashes : String → List (String × String)
  queues : String → List QMsg

/-- The empty Redis state. -/
def emptyRedis : Redis :=
  { strings := fun _ => none, hashes := fun _ => [], queues := fun _ => [] }

/-- Redis `SET key value`. -/
def rSet (r : Redis) (k : String) (v : RVal) : Redis :=
  { r with strings := fun k' => if k' = k then some v else r.strings k' }

/-- Redis `DEL key` — removes the key whatever its type. -/
def rDel (r : Redis) (k : String) : Redis :=
  { r with
    strings := fun k' => if k' = k then none else r.strings k'
    hashes := fun k' => if k' = k then [] else r.hashes k' }

/-- Insert-or-replace one field of an association-list hash
(the semantics of a Redis `HSET` field write / a Go map write). -/
def upsertField (h : List (String × String)) (f v : String) : List (String × String) :=
  match h with
  | [] => [(f, v)]
  | (f', v') :: rest => if f' = f then (f, v) :: rest else (f', v') :: upsertField rest f v

/-- Redis `HSET key field value` (single field). -/
def rHSet1 (r : Redis) (k f v : String) : Redis :=
  { r with hashes := fun k' => if k' = k then upsertField (r.hashes k') f v else r.hashes k' }

/-- Redis `HSET key map` (many fields at once, as in `WarmExamCache`). -/
def rHSetAll (r : Redis) (k : String) (fields : List (String × String)) : Redis :=
  { r with hashes := fun k' =>
      if k' = k then fields.foldl (fun h fv => upsertField h fv.1 fv.2) (r.hashes k')
      else r.hashes k' }

/-- Redis `HDEL key field`. -/
def rHDel (r : Redis) (k f : String) : Redis :=
  { r with hashes := fun k' =>
      if k' = k then (r.hashes k').filter (fun fv => fv.1 ≠ f) else r.hashes k' }

/-- Redis `RPUSH key item`. -/
def rRPush (r : Redis) (k : String) (m : QMsg) : Redis :=
  { r with queues := fun k' => if k' = k then r.queues k' ++ [m] else r.queues k' }

/-! Cache key registry (internal/config/cache_key.go) and queue names
(internal/config/worker_key.go). -/

/-- `CacheKey.StudentSessionKey` — the single-device login key. -/
def studentSessionKey (studentID : Int) : String :=
  "login:" ++ toString studentID

/-- `CacheKey.StudentExamSessionStartKey`. -/
def studentExamSessionStartKey (examID : String) (studentID : Int) : String :=
  "student:" ++ toString studentID ++ ":exam:" ++ examID ++ ":session_start"

/-- `CacheKey.StudentShuffledQuestionKey`. -/
def studentShuffledQuestionKey (examID : String) (studentID : Int) : String :=
  "student:" ++ toString studentID ++ ":exam:" ++ examID ++ ":shuffled_questions"

/-- `CacheKey.StudentAnswersKey`. -/
def studentAnswersKey (examID : String) (studentID : Int) : String :=
  "student:" ++ toString studentID ++ ":exam:" ++ examID ++ ":answers"

/-- `CacheKey.ExamPayloadKey`. -/
def examPayloadKey (examID : String) : String :=
  "exam:" ++ examID ++ ":payload"

/-- `CacheKey.ExamDurationKey`. -/
def examDurationKey (examID : String) : String :=
  "exam:" ++ examID ++ ":duration"

/-- `CacheKey.ExamAnswerKey` — the answer-key hash. -/
def examAnswerKey (examID : String) : String :=
  "exam:" ++ examID ++ ":key"

/-- `CacheKey.ExamCheatRulesKey`. -/
def examCheatRulesKey (examID : String) : String :=
  "exam:" ++ examID ++ ":cheat_rules"

/-- `CacheKey.ExamRandomOrderKey`. -/
def examRandomOrderKey (examID : String) : String :=
  "exam:" ++ examID ++ ":random_order"

/-- `CacheKey.StudentActiveExamKey`. -/
def studentActiveExamKey (studentID : Int) : String :=
  "student:" ++ toString studentID ++ ":active_exam"

/-- `WorkerKey.PersistAnswersQueue`. -/
def persistAnswersQueue : String := "persist_answers_queue"

/-- `WorkerKey.PersistScoresQueue`. -/
def persistScoresQueue : String := "persist_scores_queue"

/-- `WorkerKey.PersistCheatsQueue`. -/
def persistCheatsQueue : String := "persist_cheats_queue"

/-- `WorkerKey.PersistQuestionOrderQueue`. -/
def persistQuestionOrderQueue : String := "persist_question_order_queue"

/-- Hexadecimal digit test (models the byte-class check of `uuid.Parse`). -/
def isHexDigit (c : Char) : Bool :=
  c.isDigit || ('a' ≤ c && c ≤ 'f') || ('A' ≤ c && c ≤ 'F')

/-- Canonical-form UUID validity, modelling `uuid.Parse` from
github.com/google/uuid (library code, not in the repo): 36 characters,
hyphens at positions 8, 13, 18, 23, hex digits elsewhere. -/
def isUUID (s : String) : Bool :=
  let cs := s.data
  cs.length = 36 &&
    (List.range 36).all (fun i =>
      if i = 8 || i = 13 || i = 18 || i = 23 then cs.getD i ' ' = '-'
      else isHexDigit (cs.getD i ' '))

/-- The `exam_sessions` table as a map keyed by its unique pair
`(exam_id, student_id)` (migrations, internal/model/exam_session.go). -/
def SessionsDB : Type := String × Int → Option ExamSession

/-- The `student_answers` table as a map keyed by its unique triple
`(exam_id, student_id, question_id)`; the value is the `answer` column. -/
def AnswersDB : Type := String × Int × String → Option String

/-- The empty `student_answers` table. -/
def emptyAnswersDB : AnswersDB := fun _ => none

/-- Set one `student_answers` row (the effect of an UPSERT by the triple). -/
def setAnswerRow (db : AnswersDB) (key : String × Int × String) (ans : String) : AnswersDB :=
  fun k => if k = key then some ans else db k

/-- Delete one `student_answers` row. -/
def delAnswerRow (db : AnswersDB) (key : String × Int × String) : AnswersDB :=
  fun k => if k = key then none else db k

/-- Events the WebSocket server writes to the client
(internal/websocket types: `ErrorResponse`, `AutosaveResponse`,
`GradedResponse`, `PongResponse`). -/
inductive OutEvent where
  | errEvent (msg : String)
  | successEvent (status : String)
  | gradedEvent (score : ℚ)
  | pongEvent
deriving DecidableEq, Repr

/-! Exam Cache Manager (internal/service/exam_service.go). -/

/-- `ExamService.WarmExamCache` (internal/service/exam_service.go 152-205):
reject an exam without questions, then pipeline
`SET exam:{eid}:payload`, `DEL exam:{eid}:key`,
`HSET exam:{eid}:key {question_id -> correct_option}`.
Nothing else is written. -/
def WarmExamCache (r : Redis) (exam : Exam) (questions : List Question) :
    Except String Redis :=
  if questions.length = 0 then .error "exam has no questions, cannot publish/start"
  else
    let studentQuestions := questions.map (fun q =>
      QuestionForStudent.mk q.id q.questionText q.options q.orderNum)
    let payload : ExamPayload :=
      ⟨exam.id, exam.title, exam.durationMinutes, studentQuestions⟩
    let answerKey := questions.map (fun q => (q.id, q.correctOption))
    .ok (rHSetAll
          (rDel (rSet r (examPayloadKey exam.id) (.payload payload))
            (examAnswerKey exam.id))
          (examAnswerKey exam.id) answerKey)

/-- `ExamRepository.ListPublished` (internal/repository/exam_repository.go):
`WHERE status = 'PUBLISHED'`. -/
def ListPublished (db : List Exam) : List Exam :=
  db.filter (fun e => e.status = .published)

/-- `ExamService.PrewarmAllCaches` (internal/service/exam_service.go 209-239):
warm every published exam; on a per-exam error log and `continue`.
`questionsOf` models `QuestionRepository.ListByExam`. -/
def PrewarmAllCaches (r : Redis) (db : List Exam) (questionsOf : String → List Question) :
    Redis :=
  (ListPublished db).foldl
    (fun acc ex =>
      match WarmExamCache acc ex (questionsOf ex.id) with
      | .ok r' => r'
      | .error _ => acc)
    r

/-- `ExamService.GetAnswerKey` (internal/service/exam_service.go 260-270):
`HGETALL exam:{eid}:key`, error when the hash is empty. -/
def GetAnswerKey (r : Redis) (examID : String) :
    Except String (List (String × String)) :=
  let result := r.hashes (examAnswerKey examID)
  if result.length = 0 then .error "answer key not found in cache" else .ok result

/-! Session Coordinator pieces used by the WebSocket loop
(internal/service/exam_session_service.go). -/

/-- `ExamSessionService.GetShuffledQuestionIDs`
(internal/service/exam_session_service.go 362-387): read the shuffled-order
key; on a cache miss fall back to the session row's `question_order` and
self-heal the cache when it is non-empty. -/
def GetShuffledQuestionIDs (r : Redis) (db : SessionsDB) (examID : String)
    (studentID : Int) : Except String (List String × Redis) :=
  let key := studentShuffledQuestionKey examID studentID
  match r.strings key with
  | none =>
      match db (examID, studentID) with
      | none => .error "failed to fetch session from DB"
      | some sess =>
          let qIDs := sess.questionOrder
          if qIDs.length > 0 then .ok (qIDs, rSet r key (.strList qIDs))
          else .ok (qIDs, r)
  | some (.strList qIDs) => .ok (qIDs, r)
  | some _ => .error "failed to unmarshal shuffled keys"

/-! WebSocket Command Loop (internal/handler: `WSHandler`). -/

/-- `WSHandler.handleAutosave` (ws handler 314-364): validate `q_id`, then on
an empty answer `HDEL` + enqueue a tombstone, otherwise `HSET` + enqueue; in
both cases the enqueue pushes `answerPayload` onto `persist_answers_queue`. -/
def handleAutosave (r : Redis) (examID : String) (studentID : Int)
    (qId ans : String) : Redis × List OutEvent :=
  let answersKey := studentAnswersKey examID studentID
  if qId = "" then (r, [.errEvent "q_id is required"])
  else if !(isUUID qId) then (r, [.errEvent "invalid q_id format"])
  else
    let payload : AnswerPayload := ⟨studentID, examID, qId, ans⟩
    if ans = "" then
      let r1 := rHDel r answersKey qId
      let r2 := rRPush r1 persistAnswersQueue (.ans payload)
      (r2, [.successEvent "removed"])
    else
      let r1 := rHSet1 r answersKey qId ans
      let r2 := rRPush r1 persistAnswersQueue (.ans payload)
      (r2, [.successEvent "saved"])

/-- `WSHandler.handleCheat` (ws handler 290-311): enqueue the event on
`persist_cheats_queue`; intentionally acknowledge nothing. -/
def handleCheat (r : Redis) (examID : String) (studentID : Int) (now : Int)
    (payload : String) : Redis :=
  rRPush r persistCheatsQueue (.cheat ⟨studentID, examID, now, payload⟩)

/-- The grading loop of `WSHandler.handleSubmit` (ws handler 395-404):
`for qID in orderedIDs: if key has qID and answers[qID] == key[qID]:
correct++`, translated with the accumulator made explicit. -/
def gradeLoop (answerKey studentAnswers : List (String × String)) :
    List String → Nat → Nat
  | [], correct => correct
  | qID :: rest, correct =>
      gradeLoop answerKey studentAnswers rest
        (match answerKey.lookup qID with
         | some correctAns =>
             match studentAnswers.lookup qID with
             | some studentAns => if studentAns = correctAns then correct + 1 else correct
             | none => correct
         | none => correct)

/-- `WSHandler.handleSubmit` (ws handler 367-426): fetch the answer key, the
autosaved answers and the per-student question order, grade in RAM, enqueue
the score, write one `graded` event. -/
def handleSubmit (r : Redis) (db : SessionsDB) (examID : String)
    (studentID : Int) : Redis × List OutEvent :=
  let answersKey := studentAnswersKey examID studentID
  match GetAnswerKey r examID with
  | .error _ => (r, [.errEvent "grading failed"])
  | .ok answerKey =>
      let studentAnswers := r.hashes answersKey
      match GetShuffledQuestionIDs r db examID studentID with
      | .error _ => (r, [.errEvent "failed to get question subset"])
      | .ok (orderedIDs, r1) =>
          let total := orderedIDs.length
          let correct := gradeLoop answerKey studentAnswers orderedIDs 0
          let score : ℚ := if total > 0 then (correct : ℚ) / (total : ℚ) * 100 else 0
          let r2 := rRPush r1 persistScoresQueue (.score ⟨studentID, examID, score⟩)
          (r2, [.gradedEvent score])

/-- The parse of one inbound WebSocket text frame, abstracting
`json.Unmarshal`: `malformed` is a frame that is not valid JSON (the envelope
unmarshal at ws handler 249 fails); a `valid` frame carries the peeked
`action` string and the results of unmarshalling the frame into the
action-specific request shapes. -/
inductive Frame where
  | malformed
  | valid (action : String) (autosaveQId : Option (String × String))
      (cheatPayload : Option String)
deriving DecidableEq, Repr

/-- One iteration of the read loop of `WSHandler.ExamWebSocketStream`
(ws handler 236-286) after a frame has been read: returns the updated Redis
state, the events written to the client, and whether the loop continues. -/
def wsLoopStep (r : Redis) (db : SessionsDB) (now : Int) (examID : String)
    (studentID : Int) (frame : Frame) : Redis × List OutEvent × Bool :=
  match frame with
  | .malformed => (r, [], true)
  | .valid action autosaveReq cheatReq =>
      if action = "autosave" then
        match autosaveReq with
        | none => (r, [.errEvent "invalid autosave format"], true)
        | some (qId, ans) =>
            let (r', evs) := handleAutosave r examID studentID qId ans
            (r', evs, true)
      else if action = "cheat" then
        match cheatReq with
        | none => (r, [], true)
        | some payload => (handleCheat r examID studentID now payload, [], true)
      else if action = "submit" then
        let (r', evs) := handleSubmit r db examID studentID
        (r', evs, true)
      else if action = "ping" then (r, [.pongEvent], true)
      else (r, [.errEvent ("unknown action: " ++ action)], true)

/-! Autosave persistence worker (worker source: `AutosaveWorker`). -/

/-- Environment of a worker run: which database operations fail.  Parse
failures are deterministic (in the payloads); connection-level failures are
oracles. -/
structure WorkerEnv where
  bulkUpsertFails : Bool
  bulkDeleteFails : Bool
  singleFails : AnswerPayload → Bool

/-- The environment in which every database operation succeeds (the state
"after all workers drain" of the convergence property). -/
def allOkEnv : WorkerEnv :=
  { bulkUpsertFails := false, bulkDeleteFails := false, singleFails := fun _ => false }

namespace AutosaveWorker

/-- The first payload of the batch whose `exam_id` or `q_id` fails
`uuid.Parse` — the point where the Go collection loop stops. -/
def firstBadUUID (batch : List AnswerPayload) : Option AnswerPayload :=
  batch.find? (fun p => !(isUUID p.examId && isUUID p.qId))

/-- `AutosaveWorker.bulkUpsert` (autosave worker 127-174).  The Go loop stops
at the first payload with a parse failure and executes `return err1`: when
`exam_id` failed this is the non-nil error, but when only `q_id` failed,
`err1` is nil, so the function returns success WITHOUT running the SQL —
that behaviour is translated as-is.  When every payload parses, the single
`INSERT ... ON CONFLICT (exam_id, student_id, question_id) DO UPDATE` runs;
PostgreSQL raises an error if the same triple occurs twice in one such
command ("cannot affect row a second time"), modelled by the `Nodup` guard,
and may also fail at the connection level (`env.bulkUpsertFails`). -/
def bulkUpsert (env : WorkerEnv) (db : AnswersDB) (batch : List AnswerPayload) :
    Except Unit AnswersDB :=
  match firstBadUUID batch with
  | some p => if !(isUUID p.examId) then .error () else .ok db
  | none =>
      if env.bulkUpsertFails then .error ()
      else if (batch.map (fun p => (p.examId, p.studentId, p.qId))).Nodup then
        .ok (batch.foldl (fun d p => setAnswerRow d (p.examId, p.studentId, p.qId) p.answer) db)
      else .error ()

/-- `AutosaveWorker.bulkDelete` (autosave worker 180-217): same parse-loop
slip as `bulkUpsert`; a duplicate triple in a DELETE is harmless. -/
def bulkDelete (env : WorkerEnv) (db : AnswersDB) (batch : List AnswerPayload) :
    Except Unit AnswersDB :=
  match firstBadUUID batch with
  | some p => if !(isUUID p.examId) then .error () else .ok db
  | none =>
      if env.bulkDeleteFails then .error ()
      else .ok (batch.foldl (fun d p => delAnswerRow d (p.examId, p.studentId, p.qId)) db)

/-- `AutosaveWorker.persistSingle` (autosave worker 240-269): a payload whose
UUIDs do not parse is dropped (returns nil), an empty answer is a row DELETE,
otherwise an UPSERT; the database write may fail. -/
def persistSingle (env : WorkerEnv) (db : AnswersDB) (p : AnswerPayload) :
    Except Unit AnswersDB :=
  if !(isUUID p.examId) then .ok db
  else if !(isUUID p.qId) then .ok db
  else if env.singleFails p then .error ()
  else if p.answer = "" then .ok (delAnswerRow db (p.examId, p.studentId, p.qId))
  else .ok (setAnswerRow db (p.examId, p.studentId, p.qId) p.answer)

/-- `AutosaveWorker.fallbackProcess` (autosave worker 223-238): row-by-row
writes in batch order; rows that still fail are collected and requeued. -/
def fallbackProcess (env : WorkerEnv) (db : AnswersDB) (batch : List AnswerPayload) :
    AnswersDB × List AnswerPayload :=
  batch.foldl
    (fun acc p =>
      match persistSingle env acc.1 p with
      | .ok d' => (d', acc.2)
      | .error _ => (acc.1, acc.2 ++ [p]))
    (db, [])

/-- `AutosaveWorker.flushSafe` (autosave worker 94-121): split the batch into
non-empty answers (UPSERT) and empty answers (DELETE), run the bulk upsert
first, then the bulk delete, each falling back to row-by-row processing on a
bulk error.  Returns the database and the requeued payloads. -/
def flushSafe (env : WorkerEnv) (db : AnswersDB) (batch : List AnswerPayload) :
    AnswersDB × List AnswerPayload :=
  let toUpsert := batch.filter (fun p => p.answer ≠ "")
  let toDelete := batch.filter (fun p => p.answer = "")
  let step1 : AnswersDB × List AnswerPayload :=
    if toUpsert.length > 0 then
      match bulkUpsert env db toUpsert with
      | .ok d => (d, [])
      | .error _ => fallbackProcess env db toUpsert
    else (db, [])
  let step2 : AnswersDB × List AnswerPayload :=
    if toDelete.length > 0 then
      match bulkDelete env step1.1 toDelete with
      | .ok d => (d, [])
      | .error _ => fallbackProcess env step1.1 toDelete
    else (step1.1, [])
  (step2.1, step1.2 ++ step2.2)

end AutosaveWorker

/-- The WebSocket side of the autosave path: feed a sequence of values for
one `(exam, student, question)` through `handleAutosave` in arrival order
(ws handler enqueues each one on `persist_answers_queue`). -/
def enqueueAutosaves (r : Redis) (examID : String) (studentID : Int)
    (qId : String) (vals : List String) : Redis :=
  vals.foldl (fun acc v => (handleAutosave acc examID studentID qId v).1) r

/-- The worker side of the autosave path when the whole queue lands in one
batch: decode the queue items (`Start`, autosave worker 84-90, drops
non-`answerPayload` items as malformed) and flush them with `flushSafe`. -/
def drainQueueOneBatch (env : WorkerEnv) (db : AnswersDB) (r : Redis) :
    AnswersDB × List AnswerPayload :=
  let batch := (r.queues persistAnswersQueue).filterMap
    (fun m => match m with | .ans p => some p | _ => none)
  AutosaveWorker.flushSafe env db batch

/-! Scoring persistence worker (internal/worker/scoring_worker.go). -/

/-- Environment of a scoring-worker flush: which database writes fail. -/
structure ScoreEnv where
  bulkFails : Bool
  singleFails : ScorePayload → Bool

/-- The scoring environment in which every database write succeeds. -/
def scoreAllOkEnv : ScoreEnv := { bulkFails := false, singleFails := fun _ => false }

namespace ScoringWorker

/-- Apply one score update to the session row when it exists
(the effect of the `UPDATE exam_sessions SET status='COMPLETED',
final_score, finished_at WHERE exam_id AND student_id` row match). -/
def applyScore (db : SessionsDB) (now : Int) (p : ScorePayload) : SessionsDB :=
  fun k =>
    if k = (p.examId, p.studentId) then
      match db k with
      | some row =>
          some { row with
                  status := .sessionCompleted
                  finalScore := some p.score
                  finishedAt := some now }
      | none => none
    else db k

/-- `ScoringWorker.bulkUpdateScores` (scoring_worker.go 121-165): the
collection loop returns the (non-nil) error of the first `exam_id` that fails
`uuid.Parse`; otherwise one bulk `UPDATE ... FROM UNNEST` runs, which may
fail at the connection level. -/
def bulkUpdateScores (env : ScoreEnv) (db : SessionsDB) (now : Int)
    (batch : List ScorePayload) : Except Unit SessionsDB :=
  match batch.find? (fun p => !(isUUID p.examId)) with
  | some _ => .error ()
  | none =>
      if env.bulkFails then .error ()
      else .ok (batch.foldl (fun d p => applyScore d now p) db)

/-- `ScoringWorker.persistSingle` (scoring_worker.go 186-202): a bad
`exam_id` is an error (so the caller requeues it), otherwise a single-row
UPDATE that may fail. -/
def persistSingle (env : ScoreEnv) (db : SessionsDB) (now : Int)
    (p : ScorePayload) : Except Unit SessionsDB :=
  if !(isUUID p.examId) then .error ()
  else if env.singleFails p then .error ()
  else .ok (applyScore db now p)

/-- `ScoringWorker.bulkClearAutosavedAnswers` (scoring_worker.go 171-180):
pipeline a `DEL student:{sid}:exam:{eid}:answers` for every batch item. -/
def bulkClearAutosavedAnswers (r : Redis) (batch : List ScorePayload) : Redis :=
  batch.foldl (fun acc p => rDel acc (studentAnswersKey p.examId p.studentId)) r

/-- `ScoringWorker.flushSafe` (scoring_worker.go 95-115): on bulk success
clear the autosaved-answer buffers of the whole batch; on bulk failure fall
back to row-by-row updates, requeue the rows that still fail, and return
WITHOUT clearing any buffer. -/
def flushSafe (env : ScoreEnv) (db : SessionsDB) (r : Redis) (now : Int)
    (batch : List ScorePayload) : SessionsDB × Redis × List ScorePayload :=
  if batch.length = 0 then (db, r, [])
  else
    match bulkUpdateScores env db now batch with
    | .ok db' => (db', bulkClearAutosavedAnswers r batch, [])
    | .error _ =>
        let fb :=
          batch.foldl
            (fun acc p =>
              match persistSingle env acc.1 now p with
              | .ok d' => (d', acc.2)
              | .error _ => (acc.1, acc.2 ++ [p]))
            (db, ([] : List ScorePayload))
        (fb.1, r, fb.2)

end ScoringWorker

/-! Auth & Session Guard (auth service source: `AuthService`). -/

/-- The error cases of `AuthService` relevant to the single-device invariant. -/
inductive AuthError where
  | sessionAlreadyActive
  | noActiveSession
  | sessionInvalidated
deriving DecidableEq, Repr

/-- A signed student token's claims (`AuthService.GenerateStudentToken`
claims block): JTI, subject, class, issue and expiry instants. -/
structure StudentToken where
  jti : String
  userId : Int
  classId : Int
  issuedAt : Int
  expiresAt : Int
deriving DecidableEq, Repr

/-- The string a Redis value reads back as. -/
def jtiOfVal (v : RVal) : String :=
  match v with
  | .str s => s
  | _ => ""

/-- What Go's `rdb.Get(...).Result()` yields as a string for the login key:
the stored string, or `""` when the key is absent (`redis.Nil`). -/
def storedJti (r : Redis) (studentID : Int) : String :=
  match r.strings (studentSessionKey studentID) with
  | some v => jtiOfVal v
  | none => ""

/-- `AuthService.GenerateStudentToken` (auth service 170-209): read
`login:{sid}`; if a session is already stored, fail with
`ErrSessionAlreadyActive`; otherwise store the fresh JTI and return the
signed token.  `jti` stands for the fresh `uuid.New()`, `expiry` for
`cfg.JWTExpiry` in seconds. -/
def GenerateStudentToken (r : Redis) (studentID classID : Int) (jti : String)
    (expiry now : Int) : Except AuthError (StudentToken × Redis) :=
  let sessionKey := studentSessionKey studentID
  let existing := storedJti r studentID
  if existing ≠ "" then .error .sessionAlreadyActive
  else
    .ok (⟨jti, studentID, classID, now, now + expiry⟩,
         rSet r sessionKey (.str jti))

/-- `AuthService.ValidateStudentSession` (auth service 252-266): fetch
`login:{sid}`; absent means no active session; a stored value different from
the token's JTI means the session was invalidated. -/
def ValidateStudentSession (r : Redis) (studentID : Int) (jti : String) :
    Except AuthError Unit :=
  match r.strings (studentSessionKey studentID) with
  | none => .error .noActiveSession
  | some v =>
      if jtiOfVal v ≠ jti then .error .sessionInvalidated else .ok ()

/-- `AuthService.ResetStudentSession` (auth service 269-272). -/
def ResetStudentSession (r : Redis) (studentID : Int) : Redis :=
  rDel r (studentSessionKey studentID)

/-! `GetExamState` (internal/service/exam_session_service.go 390-475). -/

/-- `model.ExamSessionState` (internal/model/exam_session.go): what
`GET /exams/:id/state` returns.  Remaining time in whole seconds. -/
structure ExamSessionState where
  examId : String
  studentId : Int
  isRandomOrder : Bool
  cheatRules : List (String × Bool)
  autosavedAnswers : List (String × String)
  remainingTime : Int
deriving DecidableEq, Repr

/-- Reading an integer out of a Redis value, as `strconv.Atoi`/`ParseInt` do
on the stored string. -/
def rvalToInt (v : RVal) : Option Int :=
  match v with
  | .int n => some n
  | .str s => s.toInt?
  | _ => none

/-- Reading a boolean out of a Redis value, as go-redis `.Bool()`
(`strconv.ParseBool`) does on the stored string. -/
def rvalToBool (v : RVal) : Option Bool :=
  match v with
  | .boolean b => some b
  | .int 0 => some false
  | .int 1 => some true
  | .int _ => none
  | .str s =>
      if s = "1" || s = "t" || s = "T" || s = "true" || s = "TRUE" || s = "True" then some true
      else if s = "0" || s = "f" || s = "F" || s = "false" || s = "FALSE" || s = "False" then some false
      else none
  | _ => none

/-- `ExamSessionService.GetExamState` (exam_session_service.go 390-475):
autosaved answers from the answers hash; duration from `exam:{eid}:duration`
(an error when missing or unparsable); session start from
`student:{sid}:exam:{eid}:session_start` with DB fallback and self-heal;
remaining time clamped at zero; cheat rules from `exam:{eid}:cheat_rules`
(an error when missing or mistyped); `is_random_order` from
`exam:{eid}:random_order`, defaulting to `true` on ANY read or parse error
(lines 461-465). -/
def GetExamState (r : Redis) (db : SessionsDB) (now : Int) (examID : String)
    (studentID : Int) : Except String (ExamSessionState × Redis) :=
  let questionAnswers := r.hashes (studentAnswersKey examID studentID)
  match (r.strings (examDurationKey examID)).bind rvalToInt with
  | none => .error "get exam duration"
  | some durationMinutes =>
      let startKey := studentExamSessionStartKey examID studentID
      let startRead : Except String (Int × Redis) :=
        match r.strings startKey with
        | none =>
            match db (examID, studentID) with
            | none => .error "session not found in cache or db"
            | some sess => .ok (sess.startedAt, rSet r startKey (.int sess.startedAt))
        | some v =>
            match rvalToInt v with
            | none => .error "invalid start time format in cache"
            | some n => .ok (n, r)
      match startRead with
      | .error e => .error e
      | .ok (startTimeUnix, r1) =>
          let endTime := startTimeUnix + durationMinutes * 60
          let remaining := if endTime - now < 0 then 0 else endTime - now
          match r1.strings (examCheatRulesKey examID) with
          | none => .error "get cheat rules"
          | some (.boolMap cheatRules) =>
              let isRandom :=
                match (r1.strings (examRandomOrderKey examID)).bind rvalToBool with
                | some b => b
                | none => true
              .ok (⟨examID, studentID, isRandom, cheatRules, questionAnswers, remaining⟩, r1)
          | some _ => .error "failed to unmarshal cheat rules"

/-! Idempotent join (internal/service/exam_session_service.go `JoinExam`
179-279 and the repository `Create`,
`INSERT ... ON CONFLICT (exam_id, student_id) DO NOTHING RETURNING`).

Concurrency model: the `(exam, student)` row of `exam_sessions` is a global
history `h : ℕ → Option ExamSession`; at every instant either nothing
happens or some request's INSERT fills the absent row.  Each Join request
observes the history at its own instants; interleaving with the other N-1
requests is arbitrary. -/

/-- One instant of the shared-row history: unchanged, or an
`INSERT ... ON CONFLICT DO NOTHING` filling the absent row. -/
def sessStep (σ σ' : Option ExamSession) : Prop :=
  σ' = σ ∨ (σ = none ∧ ∃ s, σ' = some s)

/-- A valid history of the `(exam, student)` row: initially absent, and
every step is a `sessStep`.  No operation in the join path deletes or
rewrites the row. -/
def ValidHistory (h : ℕ → Option ExamSession) : Prop :=
  h 0 = none ∧ ∀ t, sessStep (h t) (h (t + 1))

/-- The preconditions `JoinExam` checks before touching the session table
(exam_session_service.go 185-217): status PUBLISHED or IN_PROGRESS, `now`
inside the scheduled window, entry token match, exam targeted at the
student's class (`allowedExamIDs` models `FindExamsForStudent`). -/
def joinPreconditionsOk (exam : Exam) (now : Int) (entryToken : String)
    (allowedExamIDs : List String) : Bool :=
  (exam.status = .published || exam.status = .inProgress)
    && (match exam.scheduledStart with | some st => !(now < st) | none => true)
    && (match exam.scheduledEnd with | some en => !(en < now) | none => true)
    && (exam.entryToken = entryToken)
    && allowedExamIDs.contains exam.id

/-- The response of one Join request. -/
inductive JoinResp where
  | ok (s : ExamSession)
  | errPrecondition
  | fetchFailed
deriving DecidableEq, Repr

/-- One Join request's walk through the session table
(exam_session_service.go 219-260), at its own instants of the shared
history: `t1` is its initial SELECT; when absent, `t2` is its INSERT, which
either fills the row (fresh insert, `RETURNING` the row) or observes it
already present (`pgx.ErrNoRows` from `ON CONFLICT DO NOTHING`) and
re-reads at `t3`. -/
def JoinRunCore (h : ℕ → Option ExamSession) (resp : JoinResp) : Prop :=
  ∃ t1,
    (∃ s, h t1 = some s ∧ resp = .ok s) ∨
    (h t1 = none ∧ ∃ t2, t1 < t2 ∧
      ((∃ s, h t2 = none ∧ h (t2 + 1) = some s ∧ resp = .ok s) ∨
       ((∃ s', h t2 = some s') ∧ ∃ t3, t2 < t3 ∧
         ((∃ s, h t3 = some s ∧ resp = .ok s) ∨
          (h t3 = none ∧ resp = .fetchFailed)))))

/-- `ExamSessionService.JoinExam` under concurrency: the precondition gate,
then the session-table walk. -/
def JoinExamRun (exam : Exam) (now : Int) (entryToken : String)
    (allowedExamIDs : List String) (h : ℕ → Option ExamSession)
    (resp : JoinResp) : Prop :=
  if joinPreconditionsOk exam now entryToken allowedExamIDs then JoinRunCore h resp
  else resp = .errPrecondition

/-- The score formula as the specification words it (spec §4.6):
`correct = number of q in shuffled with key[q] present and
answers[q] == key[q]; score = (correct/len(shuffled))*100 if shuffled
else 0`.  Written from the spec sentence, to be compared with the
translated `handleSubmit`. -/
def specScore (key answers : List (String × String)) (shuffled : List String) : ℚ :=
  if shuffled = [] then 0
  else
    ((shuffled.countP fun q =>
        match key.lookup q with
        | some c => answers.lookup q == some c
        | none => false : ℕ) : ℚ) / (shuffled.length : ℚ) * 100

/-- An empty `exam_sessions` table. -/
def emptySessionsDB : SessionsDB := fun _ => none

/-! Concrete fixtures used by counterexamples and witnesses. -/

/-- A valid canonical UUID used as an exam id in concrete runs. -/
def exU : String := "00000000-0000-0000-0000-000000000001"

/-- A valid canonical UUID used as a question id in concrete runs. -/
def qU : String := "00000000-0000-0000-0000-000000000002"

/-- A published one-question exam fixture. -/
def c3Exam : Exam :=
  ⟨"e1", "Algebra", 1, none, none, 60, "tok", 0, false, .published⟩

/-- Its single question. -/
def c3Question : Question := ⟨"q1", "2+2", "[3,4,5,6]", "4", 1⟩

/-- A published exam whose question list is empty at prewarm time. -/
def c6ExamB : Exam :=
  ⟨"eB", "Empty", 1, none, none, 30, "tokB", 0, false, .published⟩

/-- A published exam with one question, prewarmed alongside `c6ExamB`. -/
def c6ExamA : Exam :=
  ⟨"eA", "Full", 1, none, none, 30, "tokA", 0, false, .published⟩

/-- The question table for the prewarm fixtures. -/
def c6QuestionsOf : String → List Question :=
  fun id => if id = "eA" then [⟨"qA", "1+1", "[1,2]", "2", 1⟩] else []

/-- A Redis state holding an old login JTI for student 7. -/
def rWithOldJti : Redis :=
  rSet emptyRedis (studentSessionKey 7) (.str "jti-old")

/-- A score payload with a valid exam UUID. -/
def scoreP0 : ScorePayload := ⟨1, exU, 80⟩

/-- The session row `scoreP0` targets, still in progress. -/
def scoreRow0 : ExamSession := ⟨5, 100, none, .sessionInProgress, none, []⟩

/-- A session table holding exactly `scoreRow0`. -/
def scoreDb0 : SessionsDB :=
  fun k => if k = (exU, (1 : Int)) then some scoreRow0 else none

/-- A Redis state holding one autosaved answer for `scoreP0`'s student. -/
def scoreRedis0 : Redis :=
  rHSet1 emptyRedis (studentAnswersKey exU 1) "q1" "A"

/-- The scoring environment where the bulk UPDATE fails but each single-row
UPDATE succeeds. -/
def scoreBulkFailEnv : ScoreEnv := { bulkFails := true, singleFails := fun _ => false }

/-- An autosave payload whose `q_id` is not a UUID (but whose `exam_id` is). -/
def c8Bad : AnswerPayload := ⟨1, exU, "not-a-uuid", "x"⟩

/-- A fully well-formed autosave payload in the same batch as `c8Bad`. -/
def c8Good : AnswerPayload := ⟨1, exU, qU, "y"⟩

/-- A join-precondition-satisfying exam fixture. -/
def joinExam0 : Exam :=
  ⟨"ex1", "Join", 1, none, none, 45, "tok", 0, false, .published⟩

/-- The single session row the concurrent joins converge on. -/
def joinSess0 : ExamSession := ⟨9, 500, none, .sessionInProgress, none, []⟩

/-- A shared-row history: absent at instants 0 and 1, filled from instant 2
on (one of the concurrent INSERTs took effect between 1 and 2). -/
def joinHist0 : ℕ → Option ExamSession :=
  fun t => if t ≤ 1 then none else some joinSess0

/-- An exam that asks for randomized questions, for the `GetExamState`
fixtures. -/
def c10Exam : Exam :=
  ⟨"e1", "Random", 1, none, none, 60, "tok", 0, true, .published⟩

/-- A Redis state with duration, cheat rules and session start present and
no `random_order` key, as `WarmExamCache` leaves it. -/
def c10Redis : Redis :=
  rSet (rSet (rSet emptyRedis (examDurationKey "e1") (.int 60))
      (examCheatRulesKey "e1") (.boolMap []))
    (studentExamSessionStartKey "e1" 1) (.int 1000)

/-- A Redis state for a concrete submit: a two-question answer key, one
autosaved answer, and the student's shuffled order. -/
def c2Redis : Redis :=
  rSet (rHSet1 (rHSetAll emptyRedis (examAnswerKey "e1") [("q1", "A"), ("q2", "B")])
      (studentAnswersKey "e1" 1) "q1" "A")
    (studentShuffledQuestionKey "e1" 1) (.strList ["q1", "q2"])

/-- A question fixture for the warmed `GetExamState` run. -/
def c10Question : Question := ⟨"q9", "capital", "[a,b]", "B", 1⟩

/-- `c10Redis` after `WarmExamCache` ran for `c10Exam`. -/
def c10Warmed : Redis :=
  (WarmExamCache c10Redis c10Exam [c10Question]).toOption.getD emptyRedis

/-- The state `GetExamState` returns on `c10Warmed`. -/
def c10St : ExamSessionState := ⟨"e1", 1, true, [], [], 4600⟩

/-! Helper lemmas. -/

theorem upsertField_ne_nil (h : List (String × String)) (f v : String) :
    upsertField h f v ≠ [] := by
  cases h with
  | nil => simp [upsertField]
  | cons fv rest =>
      simp only [upsertField]
      by_cases hf : fv.1 = f <;> simp [hf]

theorem foldl_upsert_ne_nil (fields : List (String × String)) :
    ∀ acc : List (String × String), fields ≠ [] ∨ acc ≠ [] →
      fields.foldl (fun h fv => upsertField h fv.1 fv.2) acc ≠ [] := by
  induction fields with
  | nil =>
      intro acc hd
      rcases hd with hd | hd
      · exact absurd rfl hd
      · simpa using hd
  | cons fv rest ih =>
      intro acc _
      simp only [List.foldl_cons]
      exact ih (upsertField acc fv.1 fv.2) (Or.inr (upsertField_ne_nil acc fv.1 fv.2))

theorem data_head_append (s t : String) (c : Char) (h : s.data.head? = some c) :
    (s ++ t).data.head? = some c := by
  rw [String.data_append]
  cases hs : s.data with
  | nil => rw [hs] at h; cases h
  | cons a l => rw [hs] at h; simpa using h

theorem data_last_append (s t : String) (c : Char) (h : t.data.getLast? = some c) :
    (s ++ t).data.getLast? = some c := by
  rw [String.data_append, List.getLast?_append, h]
  rfl

theorem string_ne_of_head (p q : String) (c d : Char) (hc : c ≠ d)
    (hp : p.data.head? = some c) (hq : q.data.head? = some d) : p ≠ q := by
  intro h
  rw [h, hq] at hp
  exact hc (Option.some.inj hp).symm

theorem string_ne_of_last (p q : String) (c d : Char) (hc : c ≠ d)
    (hp : p.data.getLast? = some c) (hq : q.data.getLast? = some d) : p ≠ q := by
  intro h
  rw [h, hq] at hp
  exact hc (Option.some.inj hp).symm

theorem examAnswerKey_last (a : String) :
    (examAnswerKey a).data.getLast? = some 'y' :=
  data_last_append ("exam:" ++ a) ":key" 'y' (by decide)

theorem examPayloadKey_last (a : String) :
    (examPayloadKey a).data.getLast? = some 'd' :=
  data_last_append ("exam:" ++ a) ":payload" 'd' (by decide)

theorem examDurationKey_last (a : String) :
    (examDurationKey a).data.getLast? = some 'n' :=
  data_last_append ("exam:" ++ a) ":duration" 'n' (by decide)

theorem examCheatRulesKey_last (a : String) :
    (examCheatRulesKey a).data.getLast? = some 's' :=
  data_last_append ("exam:" ++ a) ":cheat_rules" 's' (by decide)

theorem examRandomOrderKey_last (a : String) :
    (examRandomOrderKey a).data.getLast? = some 'r' :=
  data_last_append ("exam:" ++ a) ":random_order" 'r' (by decide)

theorem examKey_head (a : String) (sfx : String) :
    (("exam:" ++ a) ++ sfx).data.head? = some 'e' :=
  data_head_append ("exam:" ++ a) sfx 'e' (data_head_append "exam:" a 'e' (by decide))

theorem studentKey3_head (a b sfx : String) :
    ((("student:" ++ a) ++ b) ++ sfx).data.head? = some 's' :=
  data_head_append _ sfx 's'
    (data_head_append _ b 's' (data_head_append "student:" a 's' (by decide)))

theorem studentStartKey_ne_examRandomOrderKey (e : String) (sid : Int) (b : String) :
    studentExamSessionStartKey e sid ≠ examRandomOrderKey b :=
  string_ne_of_head _ _ 's' 'e' (by decide)
    (studentKey3_head (toString sid) (":exam:" ++ e) ":session_start")
    (examKey_head b ":random_order")

theorem examAnswerKey_ne_examPayloadKey (a b : String) :
    examAnswerKey a ≠ examPayloadKey b :=
  string_ne_of_last _ _ 'y' 'd' (by decide) (examAnswerKey_last a) (examPayloadKey_last b)

theorem examDurationKey_ne_examPayloadKey (a b : String) :
    examDurationKey a ≠ examPayloadKey b :=
  string_ne_of_last _ _ 'n' 'd' (by decide) (examDurationKey_last a) (examPayloadKey_last b)

theorem examDurationKey_ne_examAnswerKey (a b : String) :
    examDurationKey a ≠ examAnswerKey b :=
  string_ne_of_last _ _ 'n' 'y' (by decide) (examDurationKey_last a) (examAnswerKey_last b)

theorem examCheatRulesKey_ne_examPayloadKey (a b : String) :
    examCheatRulesKey a ≠ examPayloadKey b :=
  string_ne_of_last _ _ 's' 'd' (by decide) (examCheatRulesKey_last a) (examPayloadKey_last b)

theorem examCheatRulesKey_ne_examAnswerKey (a b : String) :
    examCheatRulesKey a ≠ examAnswerKey b :=
  string_ne_of_last _ _ 's' 'y' (by decide) (examCheatRulesKey_last a) (examAnswerKey_last b)

theorem examRandomOrderKey_ne_examPayloadKey (a b : String) :
    examRandomOrderKey a ≠ examPayloadKey b :=
  string_ne_of_last _ _ 'r' 'd' (by decide) (examRandomOrderKey_last a) (examPayloadKey_last b)

theorem examRandomOrderKey_ne_examAnswerKey (a b : String) :
    examRandomOrderKey a ≠ examAnswerKey b :=
  string_ne_of_last _ _ 'r' 'y' (by decide) (examRandomOrderKey_last a) (examAnswerKey_last b)

theorem examAnswerKey_inj (a b : String) (h : examAnswerKey a = examAnswerKey b) :
    a = b := by
  have hd : ("exam:".data ++ a.data) ++ ":key".data
      = ("exam:".data ++ b.data) ++ ":key".data := by
    have := congrArg String.data h
    simpa [examAnswerKey, String.data_append] using this
  have h2 := List.append_cancel_left (List.append_cancel_right hd)
  cases a; cases b; simp_all

theorem gradeLoop_eq_countP (key answers : List (String × String)) :
    ∀ (l : List String) (acc : ℕ),
      gradeLoop key answers l acc =
        acc + l.countP (fun q =>
          match key.lookup q with
          | some c => answers.lookup q == some c
          | none => false) := by
  intro l
  induction l with
  | nil => intro acc; simp [gradeLoop]
  | cons q rest ih =>
      intro acc
      simp only [gradeLoop]
      rw [ih, List.countP_cons]
      rcases hk : key.lookup q with _ | c
      · simp [hk]
      · rcases ha : answers.lookup q with _ | s
        · simp [hk, ha]
        · by_cases hs : s = c
          · subst hs
            simp [hk, ha]
            omega
          · simp only [hk, ha, if_neg hs]
            have : ((some s == some c) = false) := by
              simpa using hs
            simp [this]

/-- C2: for every answer-key map, student-answers map and shuffled list, the
in-RAM grader of `handleSubmit` emits exactly one `graded` event whose score
is `(number of q in shuffled with key[q] present and answers[q] = key[q]) /
len(shuffled) * 100`, and `0` when the shuffled list is empty.  Being a pure
function of its four inputs, the percentage is the same on every run. -/
theorem submit_score_matches_formula (r : Redis) (db : SessionsDB)
    (examID : String) (studentID : Int) (ids : List String)
    (hKey : r.hashes (examAnswerKey examID) ≠ [])
    (hShuf : r.strings (studentShuffledQuestionKey examID studentID)
      = some (.strList ids)) :
    (handleSubmit r db examID studentID).2 =
      [OutEvent.gradedEvent
        (specScore (r.hashes (examAnswerKey examID))
          (r.hashes (studentAnswersKey examID studentID)) ids)] ∧
    (ids = [] →
      specScore (r.hashes (examAnswerKey examID))
        (r.hashes (studentAnswersKey examID studentID)) ids = 0) := by
  constructor
  · have hlen : ¬((r.hashes (examAnswerKey examID)).length = 0) := by
      simpa [List.length_eq_zero] using hKey
    rw [handleSubmit, GetAnswerKey]
    simp only [hlen, if_false, GetShuffledQuestionIDs, hShuf]
    rcases hids : ids with _ | ⟨q, rest⟩
    · simp [specScore]
    · simp only [specScore, gradeLoop_eq_countP]
      simp
  · intro h
    simp [specScore, h]

/-- C2 witness: a concrete two-question submit — one answer right, one
missing — grades to the formula's value. -/
theorem submit_score_matches_formula_witness :
    (handleSubmit c2Redis emptySessionsDB "e1" 1).2 =
      [OutEvent.gradedEvent
        (specScore (c2Redis.hashes (examAnswerKey "e1"))
          (c2Redis.hashes (studentAnswersKey "e1" 1)) ["q1", "q2"])] :=
  (submit_score_matches_formula c2Redis emptySessionsDB "e1" 1 ["q1", "q2"]
    (by decide) (by rfl)).1

/-- C9 counterexample: on a frame that is not valid JSON the read loop writes
NO event at all (the code logs and `continue`s), where the claim requires an
`error` event to be written to the client. -/
theorem ws_malformed_writes_no_event :
    (wsLoopStep emptyRedis emptySessionsDB 0 "e1" 1 Frame.malformed).2.1
      = ([] : List OutEvent) := by
  rfl

/-- C9 amended: a malformed frame is logged and skipped — the read loop
continues with no event written to the client; a frame whose `action` is
unknown gets exactly one `error` event and the loop continues. -/
theorem ws_malformed_skipped_unknown_errored (r : Redis) (db : SessionsDB)
    (now : Int) (examID : String) (studentID : Int) :
    wsLoopStep r db now examID studentID Frame.malformed = (r, [], true) ∧
    (∀ (a : String) (ar : Option (String × String)) (cr : Option String),
      a ≠ "autosave" → a ≠ "cheat" → a ≠ "submit" → a ≠ "ping" →
      wsLoopStep r db now examID studentID (Frame.valid a ar cr)
        = (r, [OutEvent.errEvent ("unknown action: " ++ a)], true)) := by
  refine ⟨rfl, ?_⟩
  intro a ar cr h1 h2 h3 h4
  simp [wsLoopStep, h1, h2, h3, h4]

/-- C9 witness: a concrete unknown action gets the error event and the loop
continues. -/
theorem ws_unknown_action_witness :
    wsLoopStep emptyRedis emptySessionsDB 0 "e1" 1 (Frame.valid "foo" none none)
      = (emptyRedis, [OutEvent.errEvent "unknown action: foo"], true) :=
  (ws_malformed_skipped_unknown_errored emptyRedis emptySessionsDB 0 "e1" 1).2
    "foo" none none (by decide) (by decide) (by decide) (by decide)

/-- C5 counterexample: with a JTI already stored for student 7, a fresh login
attempt does NOT overwrite it — `GenerateStudentToken` fails with
`SessionAlreadyActive`, so the claimed silent invalidation-by-overwrite on a
successful re-login never occurs. -/
theorem second_login_rejected_not_overwritten :
    GenerateStudentToken rWithOldJti 7 3 "jti-new" 3600 0
      = .error .sessionAlreadyActive ∧
    storedJti rWithOldJti 7 = "jti-old" := by
  constructor <;> rfl

/-- C5 amended: at most one JTI validates per student at any time; a login
while a JTI is stored fails with `SessionAlreadyActive` (the stored JTI is
untouched, not overwritten); a login with no stored JTI issues a token whose
fresh JTI becomes the stored one. -/
theorem single_device_invariant (r : Redis) (sid cid : Int) (jti : String)
    (expiry now : Int) :
    (∀ j₁ j₂, ValidateStudentSession r sid j₁ = .ok () →
      ValidateStudentSession r sid j₂ = .ok () → j₁ = j₂) ∧
    (storedJti r sid ≠ "" →
      GenerateStudentToken r sid cid jti expiry now = .error .sessionAlreadyActive) ∧
    (storedJti r sid = "" →
      GenerateStudentToken r sid cid jti expiry now
        = .ok (⟨jti, sid, cid, now, now + expiry⟩,
            rSet r (studentSessionKey sid) (.str jti))) := by
  refine ⟨?_, ?_, ?_⟩
  · intro j₁ j₂ h₁ h₂
    rw [ValidateStudentSession] at h₁ h₂
    rcases hv : r.strings (studentSessionKey sid) with _ | v
    · rw [hv] at h₁; cases h₁
    · rw [hv] at h₁ h₂
      have hj₁ : jtiOfVal v = j₁ := by
        by_contra hne
        simp [hne] at h₁
      have hj₂ : jtiOfVal v = j₂ := by
        by_contra hne
        simp [hne] at h₂
      rw [← hj₁, hj₂]
  · intro hst
    rw [GenerateStudentToken]
    simp [hst]
  · intro hst
    rw [GenerateStudentToken]
    simp [hst]

/-- C5 witness: with a stored JTI the login is rejected; with none, the fresh
JTI is stored. -/
theorem single_device_invariant_witness :
    GenerateStudentToken rWithOldJti 7 3 "jti-new" 3600 0
        = .error .sessionAlreadyActive ∧
    GenerateStudentToken emptyRedis 7 3 "jti-new" 3600 0
        = .ok (⟨"jti-new", 7, 3, 0, 3600⟩,
            rSet emptyRedis (studentSessionKey 7) (.str "jti-new")) :=
  ⟨(single_device_invariant rWithOldJti 7 3 "jti-new" 3600 0).2.1 (by decide),
   (single_device_invariant emptyRedis 7 3 "jti-new" 3600 0).2.2 (by rfl)⟩

/-- C3 counterexample: warming a one-question published exam into an empty
cache leaves the payload present but the duration, cheat_rules and
random_order keys ABSENT — the pipeline contains no `SET` for them, so not
all five cache entries are present after a successful `WarmExamCache`. -/
theorem warm_cache_omits_three_keys :
    (WarmExamCache emptyRedis c3Exam [c3Question]).toOption.map
      (fun r' => ((r'.strings (examPayloadKey "e1")).isSome,
                  r'.strings (examDurationKey "e1"),
                  r'.strings (examCheatRulesKey "e1"),
                  r'.strings (examRandomOrderKey "e1")))
      = some (true, none, none, none) := by
  rfl

/-- C3 amended: a successful `WarmExamCache` pipelines exactly the payload
`SET` and the answer-key `DEL`+`HSET`: afterwards the payload key is present
and the answer-key hash non-empty, while the duration, cheat_rules and
random_order entries are exactly what they were before the call. -/
theorem warm_cache_pipeline (r : Redis) (exam : Exam) (questions : List Question)
    (h : questions ≠ []) :
    ∃ r', WarmExamCache r exam questions = .ok r' ∧
      (r'.strings (examPayloadKey exam.id)).isSome ∧
      r'.hashes (examAnswerKey exam.id) ≠ [] ∧
      r'.strings (examDurationKey exam.id) = r.strings (examDurationKey exam.id) ∧
      r'.strings (examCheatRulesKey exam.id) = r.strings (examCheatRulesKey exam.id) ∧
      r'.strings (examRandomOrderKey exam.id) = r.strings (examRandomOrderKey exam.id) := by
  have hlen : ¬(questions.length = 0) := by
    simpa [List.length_eq_zero] using h
  refine ⟨_, by rw [WarmExamCache, if_neg hlen], ?_, ?_, ?_, ?_, ?_⟩
  · simp [rHSetAll, rDel, rSet,
      Ne.symm (examAnswerKey_ne_examPayloadKey exam.id exam.id)]
  · simp only [rHSetAll, rDel, rSet, if_pos rfl]
    exact foldl_upsert_ne_nil _ _ (Or.inl (by simpa using h))
  · simp [rHSetAll, rDel, rSet,
      examDurationKey_ne_examAnswerKey exam.id exam.id,
      examDurationKey_ne_examPayloadKey exam.id exam.id]
  · simp [rHSetAll, rDel, rSet,
      examCheatRulesKey_ne_examAnswerKey exam.id exam.id,
      examCheatRulesKey_ne_examPayloadKey exam.id exam.id]
  · simp [rHSetAll, rDel, rSet,
      examRandomOrderKey_ne_examAnswerKey exam.id exam.id,
      examRandomOrderKey_ne_examPayloadKey exam.id exam.id]

/-- C3 witness: the amended pipeline property at the concrete fixture. -/
theorem warm_cache_pipeline_witness :
    ∃ r', WarmExamCache emptyRedis c3Exam [c3Question] = .ok r' ∧
      (r'.strings (examPayloadKey c3Exam.id)).isSome ∧
      r'.hashes (examAnswerKey c3Exam.id) ≠ [] ∧
      r'.strings (examDurationKey c3Exam.id) = emptyRedis.strings (examDurationKey c3Exam.id) ∧
      r'.strings (examCheatRulesKey c3Exam.id) = emptyRedis.strings (examCheatRulesKey c3Exam.id) ∧
      r'.strings (examRandomOrderKey c3Exam.id) = emptyRedis.strings (examRandomOrderKey c3Exam.id) :=
  warm_cache_pipeline emptyRedis c3Exam [c3Question] (by decide)

/-- C10: when the `random_order` key is missing or unreadable,
`GetExamState` reports `is_random_order = true`; and `WarmExamCache` never
writes the `random_order` key, so a state read on a warmed exam whose
`random_order` key was absent reports `true` regardless of the exam's
randomize flag. -/
theorem random_order_defaults_true :
    (∀ (r : Redis) (db : SessionsDB) (now : Int) (examID : String)
        (studentID : Int) (st : ExamSessionState) (r' : Redis),
      (r.strings (examRandomOrderKey examID)).bind rvalToBool = none →
      GetExamState r db now examID studentID = .ok (st, r') →
      st.isRandomOrder = true) ∧
    (∀ (r : Redis) (exam : Exam) (questions : List Question) (r' : Redis)
        (eid : String),
      WarmExamCache r exam questions = .ok r' →
      r'.strings (examRandomOrderKey eid) = r.strings (examRandomOrderKey eid)) := by
  constructor
  · intro r db now examID studentID st r' hmiss hok
    rw [GetExamState] at hok
    rcases hdur : (r.strings (examDurationKey examID)).bind rvalToInt with _ | d <;>
      rw [hdur] at hok
    · cases hok
    · rcases hst : r.strings (studentExamSessionStartKey examID studentID) with _ | v <;>
        simp only [hst] at hok
      · rcases hdb : db (examID, studentID) with _ | sess <;> simp only [hdb] at hok
        · cases hok
        · have hr1 : (rSet r (studentExamSessionStartKey examID studentID)
              (.int sess.startedAt)).strings (examRandomOrderKey examID)
              = r.strings (examRandomOrderKey examID) := by
            simp [rSet,
              Ne.symm (studentStartKey_ne_examRandomOrderKey examID studentID examID)]
          rcases hch : (rSet r (studentExamSessionStartKey examID studentID)
              (.int sess.startedAt)).strings (examCheatRulesKey examID) with _ | cv <;>
            simp only [hch] at hok
          · cases hok
          · cases cv <;> simp only [hr1, hmiss] at hok <;> (cases hok; try rfl)
      · rcases hpv : rvalToInt v with _ | n <;> simp only [hpv] at hok
        · cases hok
        · rcases hch : r.strings (examCheatRulesKey examID) with _ | cv <;>
            simp only [hch] at hok
          · cases hok
          · cases cv <;> simp only [hmiss] at hok <;> (cases hok; try rfl)
  · intro r exam questions r' eid hwarm
    rw [WarmExamCache] at hwarm
    by_cases hlen : questions.length = 0
    · rw [if_pos hlen] at hwarm; cases hwarm
    · rw [if_neg hlen] at hwarm
      cases hwarm
      simp [rHSetAll, rDel, rSet,
        examRandomOrderKey_ne_examAnswerKey eid exam.id,
        examRandomOrderKey_ne_examPayloadKey eid exam.id]

/-- C10 witness: a warmed randomize-flagged exam with no `random_order` key
reads back `is_random_order = true`. -/
theorem random_order_defaults_true_witness :
    GetExamState c10Warmed emptySessionsDB 0 "e1" 1 = .ok (c10St, c10Warmed) ∧
    c10St.isRandomOrder = true ∧ c10Exam.randomizeQuestions = true :=
  ⟨by rfl,
   random_order_defaults_true.1 c10Warmed emptySessionsDB 0 "e1" 1 c10St c10Warmed
     (by rfl) (by rfl),
   by rfl⟩

theorem warm_step_preserves (questionsOf : String → List Question) (eid : String)
    (acc : Redis) (e' : Exam)
    (hp : (acc.strings (examPayloadKey eid)).isSome ∧
      acc.hashes (examAnswerKey eid) ≠ []) :
    (((match WarmExamCache acc e' (questionsOf e'.id) with
        | .ok r' => r'
        | .error _ => acc) : Redis).strings (examPayloadKey eid)).isSome ∧
    ((match WarmExamCache acc e' (questionsOf e'.id) with
        | .ok r' => r'
        | .error _ => acc) : Redis).hashes (examAnswerKey eid) ≠ [] := by
  rcases hp with ⟨hpay, hhash⟩
  rw [WarmExamCache]
  by_cases hlen : (questionsOf e'.id).length = 0
  · rw [if_pos hlen]
    exact ⟨hpay, hhash⟩
  · rw [if_neg hlen]
    constructor
    · simp only [rHSetAll, rDel, rSet,
        if_neg (Ne.symm (examAnswerKey_ne_examPayloadKey e'.id eid))]
      by_cases hpk : examPayloadKey eid = examPayloadKey e'.id
      · simp [hpk]
      · simp only [if_neg hpk]
        exact hpay
    · simp only [rHSetAll, rDel, rSet]
      by_cases hak : examAnswerKey eid = examAnswerKey e'.id
      · simp only [if_pos hak]
        exact foldl_upsert_ne_nil _ _
          (Or.inl (by simpa [List.length_eq_zero] using hlen))
      · simp only [if_neg hak]
        exact hhash

theorem warm_step_establishes (questionsOf : String → List Question)
    (acc : Redis) (e' : Exam) (hq : questionsOf e'.id ≠ []) :
    (((match WarmExamCache acc e' (questionsOf e'.id) with
        | .ok r' => r'
        | .error _ => acc) : Redis).strings (examPayloadKey e'.id)).isSome ∧
    ((match WarmExamCache acc e' (questionsOf e'.id) with
        | .ok r' => r'
        | .error _ => acc) : Redis).hashes (examAnswerKey e'.id) ≠ [] := by
  have hlen : ¬((questionsOf e'.id).length = 0) := by
    simpa [List.length_eq_zero] using hq
  rw [WarmExamCache, if_neg hlen]
  constructor
  · simp [rHSetAll, rDel, rSet,
      Ne.symm (examAnswerKey_ne_examPayloadKey e'.id e'.id)]
  · simp only [rHSetAll, rDel, rSet, if_pos rfl]
    exact foldl_upsert_ne_nil _ _ (Or.inl (by simpa using hq))

theorem prewarm_fold_preserves (questionsOf : String → List Question) (eid : String)
    (l : List Exam) : ∀ acc : Redis,
    (acc.strings (examPayloadKey eid)).isSome ∧ acc.hashes (examAnswerKey eid) ≠ [] →
    (((l.foldl (fun acc ex =>
        match WarmExamCache acc ex (questionsOf ex.id) with
        | .ok r' => r'
        | .error _ => acc) acc) : Redis).strings (examPayloadKey eid)).isSome ∧
    ((l.foldl (fun acc ex =>
        match WarmExamCache acc ex (questionsOf ex.id) with
        | .ok r' => r'
        | .error _ => acc) acc) : Redis).hashes (examAnswerKey eid) ≠ [] := by
  induction l with
  | nil => intro acc hp; exact hp
  | cons e' rest ih =>
      intro acc hp
      simp only [List.foldl_cons]
      exact ih _ (warm_step_preserves questionsOf eid acc e' hp)

theorem prewarm_fold_mem (questionsOf : String → List Question) (e : Exam)
    (hq : questionsOf e.id ≠ []) (l : List Exam) : ∀ acc : Redis, e ∈ l →
    (((l.foldl (fun acc ex =>
        match WarmExamCache acc ex (questionsOf ex.id) with
        | .ok r' => r'
        | .error _ => acc) acc) : Redis).strings (examPayloadKey e.id)).isSome ∧
    ((l.foldl (fun acc ex =>
        match WarmExamCache acc ex (questionsOf ex.id) with
        | .ok r' => r'
        | .error _ => acc) acc) : Redis).hashes (examAnswerKey e.id) ≠ [] := by
  induction l with
  | nil => intro acc he; cases he
  | cons e' rest ih =>
      intro acc he
      simp only [List.foldl_cons]
      rcases List.mem_cons.mp he with he | he
      · subst he
        exact prewarm_fold_preserves questionsOf e.id rest _
          (warm_step_establishes questionsOf acc e hq)
      · exact ih _ he

/-- C6 counterexample: a PUBLISHED exam whose question list is empty is
skipped by `PrewarmAllCaches` (its `WarmExamCache` fails with NoQuestions
and the loop continues), so after prewarm that published exam's payload key
does not exist — while the other published exam's does. -/
theorem prewarm_skips_questionless_published_exam :
    c6ExamB.status = .published ∧
    (PrewarmAllCaches emptyRedis [c6ExamA, c6ExamB] c6QuestionsOf).strings
        (examPayloadKey c6ExamB.id) = none ∧
    ((PrewarmAllCaches emptyRedis [c6ExamA, c6ExamB] c6QuestionsOf).strings
        (examPayloadKey c6ExamA.id)).isSome = true := by
  refine ⟨rfl, ?_, ?_⟩ <;> rfl

/-- C6 amended: after `PrewarmAllCaches`, for every exam with status
PUBLISHED *and at least one question* the payload key exists and the
answer-key hash is non-empty; per-exam warm failures are logged and do not
abort the iteration (the failing exam is simply skipped). -/
theorem prewarm_coverage (r : Redis) (db : List Exam)
    (questionsOf : String → List Question) (e : Exam)
    (hmem : e ∈ db) (hpub : e.status = .published)
    (hq : questionsOf e.id ≠ []) :
    (((PrewarmAllCaches r db questionsOf) : Redis).strings
        (examPayloadKey e.id)).isSome ∧
    ((PrewarmAllCaches r db questionsOf) : Redis).hashes (examAnswerKey e.id) ≠ [] := by
  have hmem' : e ∈ ListPublished db := by
    rw [ListPublished]
    exact List.mem_filter.mpr ⟨hmem, by simp [hpub]⟩
  exact prewarm_fold_mem questionsOf e hq (ListPublished db) r hmem'

/-- C6 witness: the published one-question exam fixture is covered. -/
theorem prewarm_coverage_witness :
    (((PrewarmAllCaches emptyRedis [c6ExamA, c6ExamB] c6QuestionsOf) : Redis).strings
        (examPayloadKey c6ExamA.id)).isSome ∧
    ((PrewarmAllCaches emptyRedis [c6ExamA, c6ExamB] c6QuestionsOf) : Redis).hashes
        (examAnswerKey c6ExamA.id) ≠ [] :=
  prewarm_coverage emptyRedis [c6ExamA, c6ExamB] c6QuestionsOf c6ExamA
    (by simp) (by rfl) (by decide)

theorem bulkClear_preserves (batch : List ScorePayload) : ∀ (r : Redis) (k : String),
    r.hashes k = [] ∧ r.strings k = none →
    (ScoringWorker.bulkClearAutosavedAnswers r batch).hashes k = [] ∧
    (ScoringWorker.bulkClearAutosavedAnswers r batch).strings k = none := by
  induction batch with
  | nil => intro r k h; exact h
  | cons p rest ih =>
      intro r k h
      simp only [ScoringWorker.bulkClearAutosavedAnswers, List.foldl_cons]
      refine ih _ k ?_
      by_cases hk : k = studentAnswersKey p.examId p.studentId
      · simp [rDel, hk]
      · simpa [rDel, hk] using h

theorem bulkClear_mem (batch : List ScorePayload) : ∀ (r : Redis) (p : ScorePayload),
    p ∈ batch →
    (ScoringWorker.bulkClearAutosavedAnswers r batch).hashes
        (studentAnswersKey p.examId p.studentId) = [] ∧
    (ScoringWorker.bulkClearAutosavedAnswers r batch).strings
        (studentAnswersKey p.examId p.studentId) = none := by
  induction batch with
  | nil => intro r p hp; cases hp
  | cons q rest ih =>
      intro r p hp
      simp only [ScoringWorker.bulkClearAutosavedAnswers, List.foldl_cons]
      rcases List.mem_cons.mp hp with hp | hp
      · subst hp
        exact bulkClear_preserves rest _ _ (by simp [rDel])
      · exact ih _ p hp

theorem scoring_fallback_requeue (env : ScoreEnv) (now : Int)
    (batch : List ScorePayload) : ∀ (db : SessionsDB) (acc : List ScorePayload),
    (batch.foldl
      (fun acc p =>
        match ScoringWorker.persistSingle env acc.1 now p with
        | .ok d' => (d', acc.2)
        | .error _ => (acc.1, acc.2 ++ [p]))
      (db, acc)).2
    = acc ++ batch.filter (fun p => !(isUUID p.examId) || env.singleFails p) := by
  induction batch with
  | nil => intro db acc; simp
  | cons p rest ih =>
      intro db acc
      simp only [List.foldl_cons, List.filter_cons]
      rcases hps : ScoringWorker.persistSingle env db now p with u | d'
      · have hcond : (!(isUUID p.examId) || env.singleFails p) = true := by
          rw [ScoringWorker.persistSingle] at hps
          cases hu : isUUID p.examId <;> cases hf : env.singleFails p <;>
            simp [hu, hf] at hps ⊢
        simp only [hps, hcond, if_true]
        rw [ih]
        simp
      · have hcond : (!(isUUID p.examId) || env.singleFails p) = false := by
          rw [ScoringWorker.persistSingle] at hps
          cases hu : isUUID p.examId <;> cases hf : env.singleFails p <;>
            simp [hu, hf] at hps ⊢
        simp only [hps, hcond, Bool.false_eq_true, if_false]
        rw [ih]

/-- C7 counterexample: when the bulk UPDATE fails and the row-by-row
fallback persists the whole batch successfully, the worker does NOT delete
the `student:{sid}:exam:{eid}:answers` keys: the score update is durably
persisted (row COMPLETED with the score) yet the answers buffer stays. -/
theorem scoring_fallback_keeps_answer_buffer :
    (ScoringWorker.flushSafe scoreBulkFailEnv scoreDb0 scoreRedis0 200 [scoreP0]).1
        (exU, 1) = some ⟨5, 100, some 200, .sessionCompleted, some 80, []⟩ ∧
    (ScoringWorker.flushSafe scoreBulkFailEnv scoreDb0 scoreRedis0 200 [scoreP0]).2.1.hashes
        (studentAnswersKey exU 1) = [("q1", "A")] ∧
    (ScoringWorker.flushSafe scoreBulkFailEnv scoreDb0 scoreRedis0 200 [scoreP0]).2.2
        = [] := by
  refine ⟨?_, ?_, ?_⟩ <;> rfl

/-- C7 amended: the scoring worker deletes the answers keys of every batch
item only when the BULK update succeeds; when the bulk fails it falls back to
row-by-row updates, requeues exactly the rows whose single write still fails,
and deletes no answers key on that path. -/
theorem scoring_del_only_after_bulk_success (env : ScoreEnv) (db : SessionsDB)
    (r : Redis) (now : Int) (batch : List ScorePayload) (hne : batch ≠ []) :
    (∀ db', ScoringWorker.bulkUpdateScores env db now batch = .ok db' →
      ScoringWorker.flushSafe env db r now batch
        = (db', ScoringWorker.bulkClearAutosavedAnswers r batch, []) ∧
      ∀ p ∈ batch,
        (ScoringWorker.bulkClearAutosavedAnswers r batch).hashes
            (studentAnswersKey p.examId p.studentId) = [] ∧
        (ScoringWorker.bulkClearAutosavedAnswers r batch).strings
            (studentAnswersKey p.examId p.studentId) = none) ∧
    (ScoringWorker.bulkUpdateScores env db now batch = .error () →
      (ScoringWorker.flushSafe env db r now batch).2.1 = r ∧
      (ScoringWorker.flushSafe env db r now batch).2.2
        = batch.filter (fun p => !(isUUID p.examId) || env.singleFails p)) := by
  have hlen : ¬(batch.length = 0) := by
    simpa [List.length_eq_zero] using hne
  constructor
  · intro db' hbulk
    constructor
    · rw [ScoringWorker.flushSafe, if_neg hlen, hbulk]
    · intro p hp
      exact bulkClear_mem batch r p hp
  · intro hbulk
    rw [ScoringWorker.flushSafe, if_neg hlen, hbulk]
    exact ⟨rfl, scoring_fallback_requeue env now batch db []⟩

/-- C7 witness: a concrete bulk-success flush clears the batch's answers
buffer and requeues nothing. -/
theorem scoring_del_only_after_bulk_success_witness :
    ScoringWorker.flushSafe scoreAllOkEnv scoreDb0 scoreRedis0 200 [scoreP0]
      = (ScoringWorker.applyScore scoreDb0 200 scoreP0,
         ScoringWorker.bulkClearAutosavedAnswers scoreRedis0 [scoreP0], []) ∧
    (ScoringWorker.bulkClearAutosavedAnswers scoreRedis0 [scoreP0]).hashes
        (studentAnswersKey exU 1) = [] :=
  have H := (scoring_del_only_after_bulk_success scoreAllOkEnv scoreDb0 scoreRedis0
      200 [scoreP0] (by decide)).1
    (ScoringWorker.applyScore scoreDb0 200 scoreP0) (by rfl)
  ⟨H.1, (H.2 scoreP0 (by simp)).1⟩

/-- C1 failing run: for one `(exam, student, question)` the autosave sequence
`ans=""` then `ans="A"` goes through the WebSocket handler (both enqueued, in
order) and is drained by the worker in a single batch with every database
operation succeeding — yet the `student_answers` row ends up ABSENT, because
`flushSafe` runs the bulk upsert of non-empty answers before the bulk delete
of empty-answer tombstones.  The last value of the sequence is the non-empty
"A", so convergence to the last non-empty value fails. -/
theorem autosave_same_batch_tombstone_reorder :
    (drainQueueOneBatch allOkEnv emptyAnswersDB
        (enqueueAutosaves emptyRedis exU 1 qU ["", "A"])).1 (exU, 1, qU) = none ∧
    (drainQueueOneBatch allOkEnv emptyAnswersDB
        (enqueueAutosaves emptyRedis exU 1 qU ["", "A"])).2 = [] ∧
    ["", "A"].getLast? = some "A" ∧ "A" ≠ "" := by
  refine ⟨?_, ?_, ?_, ?_⟩ <;> first | rfl | decide

/-- C8 failing run: a batch holding one payload whose `q_id` fails
`uuid.Parse` (with a valid `exam_id`) and one fully valid payload.
`bulkUpsert`'s collection loop executes `return err1` — which is nil when
only `err2` (the `q_id` parse) failed — so `flushSafe` sees success without
any SQL having run: the VALID item of the batch is neither persisted nor
requeued, where the claim requires every other item of the batch to still be
persisted. -/
theorem bulk_upsert_nil_error_drops_batch :
    AutosaveWorker.bulkUpsert allOkEnv emptyAnswersDB [c8Bad, c8Good]
      = .ok emptyAnswersDB ∧
    (AutosaveWorker.flushSafe allOkEnv emptyAnswersDB [c8Bad, c8Good]).1
      (exU, 1, qU) = none ∧
    (AutosaveWorker.flushSafe allOkEnv emptyAnswersDB [c8Bad, c8Good]).2 = [] ∧
    isUUID c8Good.examId = true ∧ isUUID c8Good.qId = true := by
  refine ⟨?_, ?_, ?_, ?_, ?_⟩ <;> rfl

theorem hist_stable (h : ℕ → Option ExamSession) (hh : ValidHistory h)
    (t : ℕ) (s : ExamSession) (hts : h t = some s) :
    ∀ k, h (t + k) = some s := by
  intro k
  induction k with
  | zero => simpa using hts
  | succ k ih =>
      rw [← Nat.add_assoc]
      rcases hh.2 (t + k) with heq | ⟨hnone, _⟩
      · rw [heq, ih]
      · rw [ih] at hnone; cases hnone

theorem hist_le (h : ℕ → Option ExamSession) (hh : ValidHistory h)
    (t t' : ℕ) (s : ExamSession) (hts : h t = some s) (hle : t ≤ t') :
    h t' = some s := by
  obtain ⟨k, rfl⟩ := Nat.exists_eq_add_of_le hle
  exact hist_stable h hh t s hts k

theorem hist_unique (h : ℕ → Option ExamSession) (hh : ValidHistory h)
    (t t' : ℕ) (s s' : ExamSession) (hts : h t = some s) (hts' : h t' = some s') :
    s = s' := by
  rcases le_total t t' with hle | hle
  · have := hist_le h hh t t' s hts hle
    rw [hts'] at this
    exact (Option.some.inj this).symm
  · have := hist_le h hh t' t s' hts' hle
    rw [hts] at this
    exact Option.some.inj this

theorem joinRunCore_ok (h : ℕ → Option ExamSession) (hh : ValidHistory h)
    (resp : JoinResp) (hrun : JoinRunCore h resp) :
    ∃ s, resp = .ok s ∧ ∃ t, h t = some s := by
  obtain ⟨t1, hcase⟩ := hrun
  rcases hcase with ⟨s, hts, hresp⟩ | ⟨_, t2, _, hcase2⟩
  · exact ⟨s, hresp, t1, hts⟩
  · rcases hcase2 with ⟨s, _, ht2', hresp⟩ | ⟨⟨s', ht2⟩, t3, hlt3, hcase3⟩
    · exact ⟨s, hresp, t2 + 1, ht2'⟩
    · rcases hcase3 with ⟨s, ht3, hresp⟩ | ⟨ht3, _⟩
      · exact ⟨s, hresp, t3, ht3⟩
      · exfalso
        have := hist_le h hh t2 t3 s' ht2 (le_of_lt hlt3)
        rw [ht3] at this
        cases this

/-- C4: under the row-level uniqueness of `(exam, student)` and the
`INSERT ... ON CONFLICT DO NOTHING RETURNING` join path, any two concurrent
Join requests that pass the preconditions complete successfully with the SAME
session row (hence the same id and `started_at`), the row exists, and the
history never holds two distinct rows — so N concurrent joins yield exactly
one `exam_sessions` row and N successful responses sharing id and
`started_at` (the loser observes no returned row, re-reads, and returns the
existing session). -/
theorem join_exam_idempotent (exam : Exam) (now : Int) (entryToken : String)
    (allowed : List String) (h : ℕ → Option ExamSession) (resp₁ resp₂ : JoinResp)
    (hh : ValidHistory h)
    (hpre : joinPreconditionsOk exam now entryToken allowed = true)
    (h₁ : JoinExamRun exam now entryToken allowed h resp₁)
    (h₂ : JoinExamRun exam now entryToken allowed h resp₂) :
    ∃ s : ExamSession, resp₁ = .ok s ∧ resp₂ = .ok s ∧ (∃ t, h t = some s) ∧
      (∀ t t' s₁ s₂, h t = some s₁ → h t' = some s₂ → s₁ = s₂) := by
  rw [JoinExamRun, if_pos hpre] at h₁ h₂
  obtain ⟨s₁, hr₁, t₁, hts₁⟩ := joinRunCore_ok h hh resp₁ h₁
  obtain ⟨s₂, hr₂, t₂, hts₂⟩ := joinRunCore_ok h hh resp₂ h₂
  have hs : s₂ = s₁ := hist_unique h hh t₂ t₁ s₂ s₁ hts₂ hts₁
  subst hs
  exact ⟨s₂, hr₁, hr₂, ⟨t₁, hts₁⟩,
    fun t t' a b ha hb => hist_unique h hh t t' a b ha hb⟩

theorem joinHist0_valid : ValidHistory joinHist0 := by
  constructor
  · rfl
  · intro t
    by_cases h0 : t = 0
    · subst h0; left; rfl
    · by_cases h1 : t = 1
      · subst h1
        right
        exact ⟨rfl, joinSess0, rfl⟩
      · left
        have ha : ¬(t ≤ 1) := by omega
        have hb : ¬(t + 1 ≤ 1) := by omega
        simp [joinHist0, ha, hb]

theorem joinRun_fresh :
    JoinExamRun joinExam0 0 "tok" ["ex1"] joinHist0 (.ok joinSess0) := by
  rw [JoinExamRun, if_pos (by rfl)]
  exact ⟨0, Or.inr ⟨rfl, 1, by omega, Or.inl ⟨joinSess0, rfl, rfl, rfl⟩⟩⟩

theorem joinRun_conflict :
    JoinExamRun joinExam0 0 "tok" ["ex1"] joinHist0 (.ok joinSess0) := by
  rw [JoinExamRun, if_pos (by rfl)]
  exact ⟨1, Or.inr ⟨rfl, 2, by omega,
    Or.inr ⟨⟨joinSess0, rfl⟩, 3, by omega, Or.inl ⟨joinSess0, rfl, rfl⟩⟩⟩⟩

/-- C4 witness: one fresh-insert run and one conflict-path run over the same
concrete history both return the single row. -/
theorem join_exam_idempotent_witness :
    ValidHistory joinHist0 ∧
    joinPreconditionsOk joinExam0 0 "tok" ["ex1"] = true ∧
    ∃ s : ExamSession, JoinResp.ok joinSess0 = .ok s ∧ JoinResp.ok joinSess0 = .ok s ∧
      (∃ t, joinHist0 t = some s) ∧
      (∀ t t' s₁ s₂, joinHist0 t = some s₁ → joinHist0 t' = some s₂ → s₁ = s₂) :=
  ⟨joinHist0_valid, by rfl,
   join_exam_idempotent joinExam0 0 "tok" ["ex1"] joinHist0 (.ok joinSess0)
     (.ok joinSess0) joinHist0_valid (by rfl) joinRun_fresh joinRun_conflict⟩

end Exstem
